import Mathlib

/-!
Verification development for the JSON-to-CSV converter in this repository
(`solution.py` / `main.py`).  The Python function `json_to_csv` reads a JSON
file, builds a pandas `DataFrame` (branching on whether the root value is a
dict or a list), and writes the frame to CSV with `to_csv(index=True)`.

The embedding below models:
  * JSON values (`Json`) and `json.load` (`parseJson`, a fuel-based parser;
    JSON numbers are modelled as integers — no claim involves decimals);
  * the pandas constructions `pd.DataFrame.from_dict(data, orient='index')`
    and `pd.DataFrame(data)` for the shapes the claims touch
    (dict of dicts, list of dicts, list of scalars); list inputs mixing
    mappings with non-mappings, or containing arrays, and dicts whose values
    are not mappings, are modelled as a pandas-level error (no claim depends
    on those shapes);
  * `DataFrame.to_csv(path, index=True)` including the empty index-header
    cell, `str()` rendering of cells, the empty rendering of missing /
    `None` cells, the int-to-float promotion of numeric columns that contain
    missing entries, and minimal CSV quoting;
  * a file system as an association list of path to contents, with a set of
    paths on which writing fails (permissions, disk full), so that the
    write-failure path of the Python code is representable;
  * the driver `json_to_csv` itself: existence check, read, parse, shape
    dispatch, output-name resolution, write, and the try/except wrapper
    that turns every failure into the boolean `False`.
-/

/-- A JSON value as produced by Python's `json.load`.  Object member lists
are insertion-ordered, as Python dicts are.  Numbers are modelled as
integers. -/
inductive Json where
  | null : Json
  | bool (b : Bool) : Json
  | num (n : Int) : Json
  | str (s : String) : Json
  | arr (xs : List Json) : Json
  | obj (kvs : List (String × Json)) : Json
deriving Repr

/-- Is the value a JSON object (a Python dict)? -/
def Json.isObj : Json → Bool
  | .obj _ => true
  | _ => false

/-- Is the value a JSON array (a Python list)? -/
def Json.isArr : Json → Bool
  | .arr _ => true
  | _ => false

/-- The member list of an object (empty for non-objects). -/
def Json.getObj : Json → List (String × Json)
  | .obj kvs => kvs
  | _ => []

/-- JSON whitespace. -/
def isJsonWs (c : Char) : Bool :=
  c = ' ' || c = '\t' || c = '\n' || c = '\r'

/-- Skip leading JSON whitespace. -/
def skipWs : List Char → List Char
  | [] => []
  | c :: cs => if isJsonWs c then skipWs cs else c :: cs

/-- Body of a JSON string literal, after the opening quote.  Only the
escapes `\"` and `\\` are modelled; other escape sequences are rejected
(the claims use none). -/
def parseStrBody : List Char → Except String (String × List Char)
  | [] => .error "Unterminated string"
  | '\\' :: c :: rest =>
    if c = '"' ∨ c = '\\' then
      match parseStrBody rest with
      | .ok (s, r) => .ok (String.mk [c] ++ s, r)
      | .error e => .error e
    else .error "Invalid escape"
  | '"' :: rest => .ok ("", rest)
  | c :: rest =>
    match parseStrBody rest with
    | .ok (s, r) => .ok (String.mk [c] ++ s, r)
    | .error e => .error e

/-- Longest prefix of decimal digits. -/
def takeDigits : List Char → List Char × List Char
  | [] => ([], [])
  | c :: cs =>
    if c.isDigit then
      let (d, r) := takeDigits cs
      (c :: d, r)
    else ([], c :: cs)

/-- Digits to a natural number. -/
def digitsToNat (ds : List Char) : Nat :=
  ds.foldl (fun a c => a * 10 + (c.toNat - '0'.toNat)) 0

/-- A JSON number (integers only; a fraction or exponent part is rejected
as unmodelled). -/
def parseNum (cs : List Char) : Except String (Json × List Char) :=
  let (neg, cs') := match cs with
    | '-' :: rest => (true, rest)
    | _ => (false, cs)
  let (ds, rest) := takeDigits cs'
  if ds.isEmpty then .error "Expecting value"
  else
    match rest with
    | '.' :: _ => .error "Non-integer numbers not modelled"
    | 'e' :: _ => .error "Non-integer numbers not modelled"
    | 'E' :: _ => .error "Non-integer numbers not modelled"
    | _ =>
      let n : Int := Int.ofNat (digitsToNat ds)
      .ok (.num (if neg then -n else n), rest)

mutual

/-- One JSON value, fuel-indexed. -/
def parseVal : Nat → List Char → Except String (Json × List Char)
  | 0, _ => .error "Recursion limit"
  | Nat.succ fuel, cs =>
    match skipWs cs with
    | [] => .error "Expecting value"
    | 'n' :: 'u' :: 'l' :: 'l' :: rest => .ok (.null, rest)
    | 't' :: 'r' :: 'u' :: 'e' :: rest => .ok (.bool true, rest)
    | 'f' :: 'a' :: 'l' :: 's' :: 'e' :: rest => .ok (.bool false, rest)
    | '"' :: rest =>
      match parseStrBody rest with
      | .ok (s, r) => .ok (.str s, r)
      | .error e => .error e
    | '[' :: rest =>
      (match skipWs rest with
       | ']' :: r => .ok (.arr [], r)
       | other => parseArrElems fuel other [])
    | '{' :: rest =>
      (match skipWs rest with
       | '}' :: r => .ok (.obj [], r)
       | other => parseObjMems fuel other [])
    | c :: rest =>
      if c = '-' ∨ c.isDigit then parseNum (c :: rest)
      else .error "Expecting value"

/-- Elements of an array after `[`, accumulating in order. -/
def parseArrElems (fuel : Nat) (cs : List Char) (acc : List Json) :
    Except String (Json × List Char) :=
  match fuel with
  | 0 => .error "Recursion limit"
  | Nat.succ fuel =>
    match parseVal fuel cs with
    | .error e => .error e
    | .ok (v, rest) =>
      match skipWs rest with
      | ',' :: r => parseArrElems fuel r (acc ++ [v])
      | ']' :: r => .ok (.arr (acc ++ [v]), r)
      | _ => .error "Expecting comma delimiter"

/-- Members of an object after `{`, accumulating in order.  As in a Python
dict, a duplicated key keeps its first position and takes the last value. -/
def parseObjMems (fuel : Nat) (cs : List Char)
    (acc : List (String × Json)) : Except String (Json × List Char) :=
  match fuel with
  | 0 => .error "Recursion limit"
  | Nat.succ fuel =>
    match skipWs cs with
    | '"' :: rest =>
      match parseStrBody rest with
      | .error e => .error e
      | .ok (k, r1) =>
        match skipWs r1 with
        | ':' :: r2 =>
          match parseVal fuel r2 with
          | .error e => .error e
          | .ok (v, r3) =>
            let acc' :=
              if acc.any (fun kv => kv.1 = k) then
                acc.map (fun kv => if kv.1 = k then (k, v) else kv)
              else acc ++ [(k, v)]
            match skipWs r3 with
            | ',' :: r4 => parseObjMems fuel r4 acc'
            | '}' :: r4 => .ok (.obj acc', r4)
            | _ => .error "Expecting comma delimiter"
        | _ => .error "Expecting colon delimiter"
    | _ => .error "Expecting property name"

end

/-- Model of Python's `json.load`: parse exactly one JSON document, with
trailing content rejected. -/
def parseJson (s : String) : Except String Json :=
  match parseVal (s.length + 2) s.data with
  | .error e => .error e
  | .ok (v, rest) =>
    if (skipWs rest).isEmpty then .ok v else .error "Extra data"

mutual

/-- Python's `str()` / `repr()` of a value loaded from JSON, as pandas
uses it when a cell holds a nested container: dicts print with single
quotes around keys and string values, lists as `[a, b]`, and the
constants as `None` / `True` / `False`.  String escapes inside the repr
are not modelled (no claim uses strings needing them). -/
def pyRepr : Json → String
  | .null => "None"
  | .bool true => "True"
  | .bool false => "False"
  | .num n => toString n
  | .str s => "\x27" ++ s ++ "\x27"
  | .arr xs => "[" ++ String.intercalate ", " (pyReprList xs) ++ "]"
  | .obj kvs => "\x7b" ++ String.intercalate ", " (pyReprMems kvs) ++ "\x7d"

def pyReprList : List Json → List String
  | [] => []
  | x :: xs => pyRepr x :: pyReprList xs

def pyReprMems : List (String × Json) → List String
  | [] => []
  | (k, v) :: kvs =>
    ("\x27" ++ k ++ "\x27: " ++ pyRepr v) :: pyReprMems kvs

end

mutual

/-- Python's `json.dumps` with default separators: the canonical JSON text
of a value (string escapes not modelled). -/
def jsonDumps : Json → String
  | .null => "null"
  | .bool true => "true"
  | .bool false => "false"
  | .num n => toString n
  | .str s => "\"" ++ s ++ "\""
  | .arr xs => "[" ++ String.intercalate ", " (jsonDumpsList xs) ++ "]"
  | .obj kvs => "\x7b" ++ String.intercalate ", " (jsonDumpsMems kvs) ++ "\x7d"

def jsonDumpsList : List Json → List String
  | [] => []
  | x :: xs => jsonDumps x :: jsonDumpsList xs

def jsonDumpsMems : List (String × Json) → List String
  | [] => []
  | (k, v) :: kvs => ("\"" ++ k ++ "\": " ++ jsonDumps v) :: jsonDumpsMems kvs

end

/-- CSV minimal quoting: a field is quoted when it contains the delimiter,
the quote character, or a line break. -/
def needsQuote (s : String) : Bool :=
  s.data.any (fun c => c = ',' || c = '"' || c = '\n' || c = '\r')

/-- Double every embedded quote character, the CSV escape. -/
def escQuotes : List Char → List Char
  | [] => []
  | '"' :: cs => '"' :: '"' :: escQuotes cs
  | c :: cs => c :: escQuotes cs

/-- Render one CSV field (doubling embedded quote characters when the
field is quoted). -/
def csvField (s : String) : String :=
  if needsQuote s then "\"" ++ String.mk (escQuotes s.data) ++ "\"" else s

/-- One CSV line: fields joined by commas, terminated by a newline. -/
def csvLine (fields : List String) : String :=
  String.intercalate "," (fields.map csvField) ++ "\n"

/-- The in-memory table: a pandas `DataFrame` restricted to what the
converter builds.  `columns` is the ordered column-label list, `index`
the ordered row-label list (outer dict keys, or `"0"`, `"1"`, … for a
`RangeIndex`), and each row keeps its own key-to-value mapping. -/
structure DataFrame where
  columns : List String
  index : List String
  rows : List (List (String × Json))
deriving Repr

/-- Append a key to an ordered key set when it is not yet present. -/
def insertNew (acc : List String) (k : String) : List String :=
  if k ∈ acc then acc else acc ++ [k]

/-- First-occurrence deduplication of a key list, keeping order. -/
def dedupFirst (l : List String) : List String :=
  l.foldl insertNew []

/-- Keys of one row mapping, in order. -/
def keysOf (r : List (String × Json)) : List String :=
  r.map Prod.fst

/-- Ordered union of the keys of all rows, in first-seen order across
rows — how pandas determines the column order when building a frame
from a sequence of dicts. -/
def unionKeys (rows : List (List (String × Json))) : List String :=
  rows.foldl (fun acc r => (keysOf r).foldl insertNew acc) []

/-- Conversion-stage failures of `json_to_csv`, one constructor per
`except` route the Python code can take. -/
inductive ConvError where
  | fileNotFound : ConvError
  | invalidJson (msg : String) : ConvError
  | badShape : ConvError
  | pandasError (msg : String) : ConvError
  | ioError (msg : String) : ConvError
deriving Repr, DecidableEq

/-- `"0"`, `"1"`, …, `"n-1"`: the labels of a pandas `RangeIndex` as
`to_csv` prints them. -/
def rangeLabels (n : Nat) : List String :=
  (List.range n).map toString

/-- `pd.DataFrame.from_dict(data, orient='index')` on a dict: the outer
keys become the index, the inner dicts the rows, and the columns are the
first-seen union of inner keys.  A dict whose values are not all
mappings is modelled as a pandas-level error (no claim depends on that
shape). -/
def pdFromDictIndex (kvs : List (String × Json)) :
    Except ConvError DataFrame :=
  if kvs.all (fun kv => kv.2.isObj) then
    .ok { columns := unionKeys (kvs.map (fun kv => kv.2.getObj))
          index := kvs.map Prod.fst
          rows := kvs.map (fun kv => kv.2.getObj) }
  else .error (.pandasError "from_dict with non-mapping values")

/-- `pd.DataFrame(data)` on a list: a list of dicts becomes one row per
element with first-seen column order; a list of scalars becomes a single
column labelled `0`.  Lists mixing the two, or containing nested lists,
are modelled as a pandas-level error (no claim depends on those
shapes). -/
def pdFromList (xs : List Json) : Except ConvError DataFrame :=
  if xs.all Json.isObj then
    .ok { columns := unionKeys (xs.map Json.getObj)
          index := rangeLabels xs.length
          rows := xs.map Json.getObj }
  else if xs.all (fun v => !v.isObj && !v.isArr) then
    .ok { columns := ["0"]
          index := rangeLabels xs.length
          rows := xs.map (fun v => [("0", v)]) }
  else .error (.pandasError "mixed list elements")

/-- The shape dispatch of `json_to_csv`: a dict goes through
`from_dict(..., orient='index')`, a list through `pd.DataFrame(...)`,
and anything else is the unsupported-format branch. -/
def pdBuild : Json → Except ConvError DataFrame
  | .obj kvs => pdFromDictIndex kvs
  | .arr xs => pdFromList xs
  | _ => .error .badShape

/-- The cell entries of one column, in row order (`none` when the row
lacks the key). -/
def colEntries (df : DataFrame) (c : String) : List (Option Json) :=
  df.rows.map (fun r => r.lookup c)

/-- A cell pandas treats as missing: an absent key or a `None` value. -/
def isMissingCell : Option Json → Bool
  | none => true
  | some .null => true
  | _ => false

/-- A present integer cell. -/
def isNumCell : Option Json → Bool
  | some (.num _) => true
  | _ => false

/-- Whether a column is promoted to float64: it has at least one missing
entry (absent key or `None`) and every non-missing entry is a number.
Such columns print integers as `1.0`; all other columns keep the
`str()` rendering of each value. -/
def promoteCol (df : DataFrame) (c : String) : Bool :=
  (colEntries df c).any isMissingCell &&
    (colEntries df c).all (fun e => isMissingCell e || isNumCell e)

/-- How `to_csv` renders one cell: missing and `None` cells are empty,
numbers print as integers (with `.0` in a float-promoted column), and
everything else by its `str()`. -/
def renderCell (promote : Bool) : Option Json → String
  | none => ""
  | some .null => ""
  | some (.num n) => if promote then toString n ++ ".0" else toString n
  | some (.bool b) => if b then "True" else "False"
  | some (.str s) => s
  | some v => pyRepr v

/-- `df.to_csv(path, index=True)`: a header line whose first cell is the
empty index label and one line per row, each led by the row's index
label and followed by one rendered cell per column, in the table's
column order. -/
def dfToCsv (df : DataFrame) : String :=
  csvLine ("" :: df.columns) ++
    String.join
      ((df.index.zip df.rows).map (fun p =>
        csvLine (p.1 ::
          df.columns.map (fun c =>
            renderCell (promoteCol df c) (p.2.lookup c)))))

/-- A file system: existing files as an association list of path to text
contents, plus the set of paths where a write raises (permission denied,
disk full, …). -/
structure FS where
  files : List (String × String)
  badPaths : List String
deriving Repr, DecidableEq

/-- Contents of the file at a path, when it exists (`os.path.exists` /
`open` for reading). -/
def FS.get (fs : FS) (p : String) : Option String :=
  fs.files.lookup p

/-- Writing a file: fails (as an exception would) on a bad path,
otherwise creates or overwrites the file at the path. -/
def FS.put (fs : FS) (p : String) (v : String) : Option FS :=
  if p ∈ fs.badPaths then none
  else some { fs with files := (p, v) :: fs.files }

/-- The part of a path after the last `/`. -/
def baseName (p : String) : String :=
  ((p.splitOn "/").reverse).headD p

/-- `Path(p).stem`: the base name without its last extension. -/
def pathStem (p : String) : String :=
  let b := baseName p
  let parts := b.splitOn "."
  if parts.length ≤ 1 then b
  else String.intercalate "." parts.dropLast

/-- Output-path resolution of `json_to_csv`: the caller's path when one
is given, else the input's stem with the `_converted.csv` suffix. -/
def resolveOut (jsonFilePath : String) (csvFilePath : Option String) :
    String :=
  match csvFilePath with
  | some p => p
  | none => pathStem jsonFilePath ++ "_converted.csv"

/-- The conversion pipeline of `json_to_csv`, with each `except` route as
an explicit error: check that the input exists, read and parse it
(`json.load`), build the frame by shape dispatch, resolve the output
name, and write the CSV.  On success it yields the row count, the
resolved output path, and the updated file system. -/
def convertRun (fs : FS) (jsonFilePath : String)
    (csvFilePath : Option String) : Except ConvError (Nat × String × FS) :=
  match fs.get jsonFilePath with
  | none => .error .fileNotFound
  | some text =>
    match parseJson text with
    | .error e => .error (.invalidJson e)
    | .ok data =>
      match pdBuild data with
      | .error e => .error e
      | .ok df =>
        match fs.put (resolveOut jsonFilePath csvFilePath) (dfToCsv df) with
        | none => .error (.ioError "write failed")
        | some fs' =>
          .ok (df.rows.length, resolveOut jsonFilePath csvFilePath, fs')

/-- The Python function `json_to_csv(json_file_path, csv_file_path)`:
the pipeline wrapped in try/except, returning `True` exactly when the
pipeline succeeded and the written file exists, and `False` on every
failure, with the file system untouched on failure paths. -/
def json_to_csv (fs : FS) (jsonFilePath : String)
    (csvFilePath : Option String) : Bool × FS :=
  match convertRun fs jsonFilePath csvFilePath with
  | .error _ => (false, fs)
  | .ok (_, out, fs') =>
    if (fs'.get out).isSome then (true, fs') else (false, fs')

/-! ### Helper lemmas about the ordered key union -/

theorem mem_insertNew {acc : List String} {k k' : String} :
    k ∈ insertNew acc k' ↔ k ∈ acc ∨ k = k' := by
  unfold insertNew
  split
  · rename_i hmem
    constructor
    · exact Or.inl
    · rintro (h | rfl)
      · exact h
      · exact hmem
  · simp [List.mem_append]

theorem mem_foldl_insertNew (l : List String) (acc : List String)
    (k : String) : k ∈ l.foldl insertNew acc ↔ k ∈ acc ∨ k ∈ l := by
  induction l generalizing acc with
  | nil => simp
  | cons x xs ih =>
    simp only [List.foldl_cons, ih, mem_insertNew, List.mem_cons]
    tauto

theorem mem_dedupFirst {l : List String} {k : String} :
    k ∈ dedupFirst l ↔ k ∈ l := by
  unfold dedupFirst
  rw [mem_foldl_insertNew]
  simp

theorem unionKeys_eq_dedupFirst (rows : List (List (String × Json))) :
    unionKeys rows = dedupFirst (rows.map keysOf).flatten := by
  suffices h : ∀ acc,
      rows.foldl (fun acc r => (keysOf r).foldl insertNew acc) acc =
        ((rows.map keysOf).flatten).foldl insertNew acc by
    exact h []
  induction rows with
  | nil => intro acc; simp
  | cons r rs ih =>
    intro acc
    simp only [List.foldl_cons, List.map_cons, List.flatten_cons,
      List.foldl_append, ih]

theorem mem_unionKeys {rows : List (List (String × Json))} {k : String} :
    k ∈ unionKeys rows ↔ ∃ r ∈ rows, k ∈ keysOf r := by
  rw [unionKeys_eq_dedupFirst, mem_dedupFirst, List.mem_flatten]
  constructor
  · rintro ⟨l, hl, hk⟩
    obtain ⟨r, hr, rfl⟩ := List.mem_map.mp hl
    exact ⟨r, hr, hk⟩
  · rintro ⟨r, hr, hk⟩
    exact ⟨keysOf r, List.mem_map.mpr ⟨r, hr, rfl⟩, hk⟩

/-! ### Helper lemmas about the file system -/

theorem FS.put_inv {fs fs' : FS} {p v : String}
    (h : fs.put p v = some fs') :
    fs' = { fs with files := (p, v) :: fs.files } ∧ p ∉ fs.badPaths := by
  unfold FS.put at h
  split at h
  · exact absurd h (by simp)
  · rename_i hbad
    injection h with h
    exact ⟨h.symm, hbad⟩

theorem FS.put_of_not_bad {fs : FS} {p v : String} (h : p ∉ fs.badPaths) :
    fs.put p v = some { fs with files := (p, v) :: fs.files } := by
  unfold FS.put
  simp [h]

theorem FS.get_put_same {fs fs' : FS} {p v : String}
    (h : fs.put p v = some fs') : fs'.get p = some v := by
  obtain ⟨rfl, -⟩ := FS.put_inv h
  simp [FS.get, List.lookup]

theorem FS.get_put_ne {fs fs' : FS} {p q v : String}
    (h : fs.put q v = some fs') (hne : p ≠ q) : fs'.get p = fs.get p := by
  obtain ⟨rfl, -⟩ := FS.put_inv h
  have hpq : (p == q) = false := by simp [hne]
  simp [FS.get, List.lookup, hpq]

/-! ### Inversion of the conversion pipeline -/

theorem convertRun_ok_inv {fs : FS} {p : String} {o : Option String}
    {n : Nat} {out : String} {fs' : FS}
    (h : convertRun fs p o = .ok (n, out, fs')) :
    ∃ text j df, fs.get p = some text ∧ parseJson text = .ok j ∧
      pdBuild j = .ok df ∧ n = df.rows.length ∧ out = resolveOut p o ∧
      fs.put (resolveOut p o) (dfToCsv df) = some fs' := by
  unfold convertRun at h
  split at h
  · exact absurd h (by simp)
  rename_i text hg
  split at h
  · exact absurd h (by simp)
  rename_i j hp
  split at h
  · exact absurd h (by simp)
  rename_i df hb
  split at h
  · exact absurd h (by simp)
  rename_i fs2 hw
  simp only [Except.ok.injEq, Prod.mk.injEq] at h
  obtain ⟨h1, h2, h3⟩ := h
  subst h3
  exact ⟨text, j, df, hg, hp, hb, h1.symm, h2.symm, hw⟩

theorem json_to_csv_of_run_ok {fs fs' : FS} {p : String}
    {o : Option String} {n : Nat} {out : String}
    (h : convertRun fs p o = .ok (n, out, fs')) :
    json_to_csv fs p o = (true, fs') := by
  obtain ⟨text, j, df, hg, hp, hb, hn, hout, hw⟩ := convertRun_ok_inv h
  have hget := FS.get_put_same hw
  unfold json_to_csv
  rw [h]
  subst hout
  simp [hget]

theorem json_to_csv_of_run_error {fs : FS} {p : String}
    {o : Option String} {e : ConvError}
    (h : convertRun fs p o = .error e) : json_to_csv fs p o = (false, fs) := by
  unfold json_to_csv
  rw [h]

/-! ### Claims -/

/-- C1: for every JSON array whose elements are all objects, the
conversion builds a table with one row per array element, and its column
list is the union of all object keys across the elements, ordered by
first appearance across rows (not alphabetically). -/
theorem C1_array_of_objects_table (xs : List Json)
    (h : xs.all Json.isObj = true) :
    ∃ df, pdBuild (Json.arr xs) = .ok df ∧
      df.rows.length = xs.length ∧
      df.columns = dedupFirst ((xs.map Json.getObj).map keysOf).flatten ∧
      (∀ k, k ∈ df.columns ↔ ∃ o ∈ xs, k ∈ keysOf o.getObj) := by
  refine ⟨⟨unionKeys (xs.map Json.getObj), rangeLabels xs.length,
          xs.map Json.getObj⟩, ?_, by simp, ?_, ?_⟩
  · unfold pdBuild pdFromList
    simp [h]
  · exact unionKeys_eq_dedupFirst (xs.map Json.getObj)
  · intro k
    show k ∈ unionKeys (xs.map Json.getObj) ↔ _
    rw [mem_unionKeys]
    constructor
    · rintro ⟨r, hr, hk⟩
      obtain ⟨o, ho, rfl⟩ := List.mem_map.mp hr
      exact ⟨o, ho, hk⟩
    · rintro ⟨o, ho, hk⟩
      exact ⟨o.getObj, List.mem_map.mpr ⟨o, ho, rfl⟩, hk⟩

/-- Concrete array-of-objects input for the C1 witness: two rows whose
keys overlap and whose first-seen column order differs from the
alphabetical one. -/
def xsC1 : List Json :=
  [Json.obj [("type", Json.str "Grass"), ("name", Json.str "Bulbasaur")],
   Json.obj [("name", Json.str "Charmander")]]

theorem C1_array_of_objects_table_witness :
    xsC1.all Json.isObj = true ∧
    (∃ df, pdBuild (Json.arr xsC1) = .ok df ∧
      df.rows.length = xsC1.length ∧
      df.columns = dedupFirst ((xsC1.map Json.getObj).map keysOf).flatten ∧
      (∀ k, k ∈ df.columns ↔ ∃ o ∈ xsC1, k ∈ keysOf o.getObj)) :=
  ⟨by decide, C1_array_of_objects_table xsC1 (by decide)⟩

/-- File system holding an array of scalars: valid JSON whose root array
has non-mapping elements. -/
def fsC3 : FS := ⟨[("in.json", "[1, 2, 3]")], []⟩

/-- C3 counterexample: on the array `[1, 2, 3]`, whose elements are not
mappings, `json_to_csv` does not fail: the list branch hands the array
to pandas unchecked, a one-column table is built, and the CSV is
written. -/
theorem C3_counterexample :
    parseJson "[1, 2, 3]" =
      Except.ok (Json.arr [Json.num 1, Json.num 2, Json.num 3]) ∧
    (Json.num 1).isObj = false ∧
    json_to_csv fsC3 "in.json" (some "out.csv") =
      (true, ⟨[("out.csv", ",0\n0,1\n1,2\n2,3\n"),
               ("in.json", "[1, 2, 3]")], []⟩) :=
  ⟨rfl, rfl, rfl⟩

/-- C3 amended: the conversion fails, writing no output, exactly when
the root value is neither a mapping nor an array (scalar or null); a
root array containing non-mapping elements is not rejected. -/
theorem C3_unsupported_root (fs : FS) (p : String) (o : Option String)
    (text : String) (j : Json) (hget : fs.get p = some text)
    (hparse : parseJson text = .ok j) (hobj : j.isObj = false)
    (harr : j.isArr = false) :
    convertRun fs p o = .error .badShape ∧
      json_to_csv fs p o = (false, fs) := by
  have hrun : convertRun fs p o = .error .badShape := by
    unfold convertRun
    simp only [hget, hparse]
    cases j <;> simp_all [pdBuild, Json.isObj, Json.isArr]
  exact ⟨hrun, json_to_csv_of_run_error hrun⟩

theorem C3_unsupported_root_witness :
    ((⟨[("in.json", "null")], []⟩ : FS).get "in.json" = some "null") ∧
    parseJson "null" = Except.ok Json.null ∧
    Json.null.isObj = false ∧
    Json.null.isArr = false ∧
    (convertRun ⟨[("in.json", "null")], []⟩ "in.json" (some "out.csv") =
        .error .badShape ∧
      json_to_csv ⟨[("in.json", "null")], []⟩ "in.json" (some "out.csv") =
        (false, ⟨[("in.json", "null")], []⟩)) :=
  ⟨rfl, rfl, rfl, rfl,
   C3_unsupported_root ⟨[("in.json", "null")], []⟩ "in.json"
     (some "out.csv") "null" Json.null rfl rfl rfl rfl⟩

/-- C4: when the input file exists but its text is not well-formed JSON,
the conversion fails carrying the parser's diagnostic and the file
system is left untouched. -/
theorem C4_invalid_json (fs : FS) (p : String) (o : Option String)
    (text : String) (e : String) (hget : fs.get p = some text)
    (hparse : parseJson text = .error e) :
    convertRun fs p o = .error (.invalidJson e) ∧
      json_to_csv fs p o = (false, fs) := by
  have hrun : convertRun fs p o = .error (.invalidJson e) := by
    unfold convertRun
    simp only [hget, hparse]
  exact ⟨hrun, json_to_csv_of_run_error hrun⟩

theorem C4_invalid_json_witness :
    ((⟨[("in.json", "\x7b")], []⟩ : FS).get "in.json" = some "\x7b") ∧
    parseJson "\x7b" = Except.error "Expecting property name" ∧
    (convertRun ⟨[("in.json", "\x7b")], []⟩ "in.json" (some "out.csv") =
        .error (.invalidJson "Expecting property name") ∧
      json_to_csv ⟨[("in.json", "\x7b")], []⟩ "in.json" (some "out.csv") =
        (false, ⟨[("in.json", "\x7b")], []⟩)) :=
  ⟨rfl, rfl,
   C4_invalid_json ⟨[("in.json", "\x7b")], []⟩ "in.json" (some "out.csv")
     "\x7b" "Expecting property name" rfl rfl⟩

/-- C7: when the input path does not exist, the conversion fails with
the file-not-found outcome before any read or parse, and nothing is
written. -/
theorem C7_missing_input (fs : FS) (p : String) (o : Option String)
    (h : fs.get p = none) :
    convertRun fs p o = .error .fileNotFound ∧
      json_to_csv fs p o = (false, fs) := by
  have hrun : convertRun fs p o = .error .fileNotFound := by
    unfold convertRun
    simp only [h]
  exact ⟨hrun, json_to_csv_of_run_error hrun⟩

theorem C7_missing_input_witness :
    ((⟨[], []⟩ : FS).get "absent.json" = none) ∧
    (convertRun ⟨[], []⟩ "absent.json" (some "out.csv") =
        .error .fileNotFound ∧
      json_to_csv ⟨[], []⟩ "absent.json" (some "out.csv") =
        (false, ⟨[], []⟩)) :=
  ⟨rfl, C7_missing_input ⟨[], []⟩ "absent.json" (some "out.csv") rfl⟩

/-- One-row input for C8. -/
def fsC8a : FS := ⟨[("in.json", "[\x7b\"a\": \"x\"\x7d]")], []⟩

/-- Two-row input for C8. -/
def fsC8b : FS :=
  ⟨[("in.json", "[\x7b\"a\": \"x\"\x7d, \x7b\"a\": \"y\"\x7d]")], []⟩

/-- The file system after converting `fsC8a`. -/
def fsC8aOut : FS :=
  ⟨[("out.csv", ",a\n0,x\n"), ("in.json", "[\x7b\"a\": \"x\"\x7d]")], []⟩

/-- The file system after converting `fsC8b`. -/
def fsC8bOut : FS :=
  ⟨[("out.csv", ",a\n0,x\n1,y\n"),
    ("in.json", "[\x7b\"a\": \"x\"\x7d, \x7b\"a\": \"y\"\x7d]")], []⟩

/-- C8 counterexample: one conversion writes one row, the other two,
yet `json_to_csv` returns the same bare boolean `True` for both — the
return value is a success flag carrying no row count. -/
theorem C8_counterexample :
    convertRun fsC8a "in.json" (some "out.csv") =
      .ok (1, "out.csv", fsC8aOut) ∧
    convertRun fsC8b "in.json" (some "out.csv") =
      .ok (2, "out.csv", fsC8bOut) ∧
    (json_to_csv fsC8a "in.json" (some "out.csv")).1 = true ∧
    (json_to_csv fsC8b "in.json" (some "out.csv")).1 = true :=
  ⟨rfl, rfl, rfl, rfl⟩

/-- C8 amended: on every successful conversion `json_to_csv` returns
the boolean `True` together with the written file system — a success
flag, not the number of rows written (the row count exists inside the
pipeline but is dropped by the return). -/
theorem C8_success_returns_true (fs fs' : FS) (p : String)
    (o : Option String) (n : Nat) (out : String)
    (h : convertRun fs p o = .ok (n, out, fs')) :
    json_to_csv fs p o = (true, fs') :=
  json_to_csv_of_run_ok h

theorem C8_success_returns_true_witness :
    convertRun fsC8a "in.json" (some "out.csv") =
      .ok (1, "out.csv", fsC8aOut) ∧
    json_to_csv fsC8a "in.json" (some "out.csv") = (true, fsC8aOut) :=
  ⟨rfl,
   C8_success_returns_true fsC8a fsC8aOut "in.json" (some "out.csv") 1
     "out.csv" rfl⟩

/-- C9: the transform is deterministic and repeatable: when the output
path differs from the input path, a successful conversion followed by a
second conversion of the same input to the same output path succeeds
again and leaves byte-identical output content. -/
theorem C9_rerun_identical (fs fs1 : FS) (p : String) (o : Option String)
    (hne : resolveOut p o ≠ p)
    (h1 : json_to_csv fs p o = (true, fs1)) :
    ∃ fs2, json_to_csv fs1 p o = (true, fs2) ∧
      fs2.get (resolveOut p o) = fs1.get (resolveOut p o) := by
  have hrun : ∃ n out, convertRun fs p o = .ok (n, out, fs1) := by
    unfold json_to_csv at h1
    split at h1
    · exact absurd h1 (by simp)
    · rename_i n out fs' heq
      split at h1
      · injection h1 with h1a h1b
        subst h1b
        exact ⟨n, out, heq⟩
      · exact absurd h1 (by simp)
  obtain ⟨n, out, hr⟩ := hrun
  obtain ⟨text, j, df, hg, hp, hb, hn, hout, hw⟩ := convertRun_ok_inv hr
  have hg1 : fs1.get p = some text := by
    rw [FS.get_put_ne hw (Ne.symm hne)]
    exact hg
  obtain ⟨hfs1, hnb⟩ := FS.put_inv hw
  have hnb1 : resolveOut p o ∉ fs1.badPaths := by
    rw [hfs1]
    exact hnb
  have hput2 := FS.put_of_not_bad (v := dfToCsv df) hnb1
  have hrun2 : convertRun fs1 p o =
      .ok (df.rows.length, resolveOut p o,
        { fs1 with files := (resolveOut p o, dfToCsv df) :: fs1.files }) := by
    unfold convertRun
    simp only [hg1, hp, hb, hput2]
  refine ⟨_, json_to_csv_of_run_ok hrun2, ?_⟩
  have hga : ({ fs1 with
      files := (resolveOut p o, dfToCsv df) :: fs1.files } : FS).get
        (resolveOut p o) = some (dfToCsv df) := by
    simp [FS.get, List.lookup]
  rw [hga, FS.get_put_same hw]

/-- Input for the C9 witness. -/
def fsC9 : FS := ⟨[("in.json", "[\x7b\"k\": 1\x7d]")], []⟩

/-- The file system after the first conversion of `fsC9`. -/
def fsC9Out : FS :=
  ⟨[("out.csv", ",k\n0,1\n"), ("in.json", "[\x7b\"k\": 1\x7d]")], []⟩

theorem C9_rerun_identical_witness :
    (resolveOut "in.json" (some "out.csv") ≠ "in.json") ∧
    json_to_csv fsC9 "in.json" (some "out.csv") = (true, fsC9Out) ∧
    (∃ fs2, json_to_csv fsC9Out "in.json" (some "out.csv") = (true, fs2) ∧
      fs2.get (resolveOut "in.json" (some "out.csv")) =
        fsC9Out.get (resolveOut "in.json" (some "out.csv"))) :=
  ⟨by decide, rfl,
   C9_rerun_identical fsC9 fsC9Out "in.json" (some "out.csv") (by decide)
     rfl⟩

/-- C10: `json_to_csv` catches every exception: whatever failure the
pipeline takes (missing file, malformed JSON, unsupported shape, pandas
error, write failure), the function returns the boolean `False` and
leaves the file system untouched, propagating nothing. -/
theorem C10_failure_returns_false (fs : FS) (p : String)
    (o : Option String) (e : ConvError)
    (h : convertRun fs p o = .error e) : json_to_csv fs p o = (false, fs) := by
  unfold json_to_csv
  rw [h]

/-- The keyed-collection example of the claim, as a file system: the
outer keys are `001` and `004`. -/
def fsC2 : FS :=
  ⟨[("in.json",
     "\x7b\"001\": \x7b\"name\": \"Bulbasaur\"\x7d, \"004\": \x7b\"name\": \"Charmander\"\x7d\x7d")],
   []⟩

/-- C2 counterexample: on the claim's own example the produced header
line is `,name` — the synthetic leading column's header cell is written
empty by `to_csv(index=True)` — not `index,name` as the claim states. -/
theorem C2_counterexample :
    (json_to_csv fsC2 "in.json" (some "out.csv")).2.get "out.csv" =
      some ",name\n001,Bulbasaur\n004,Charmander\n" ∧
    (json_to_csv fsC2 "in.json" (some "out.csv")).2.get "out.csv" ≠
      some "index,name\n001,Bulbasaur\n004,Charmander\n" :=
  ⟨rfl, by decide⟩

/-- C2 amended: for an object of objects, the table has one row per
outer key, each row's synthetic identifier equals the original outer
key and leads its CSV line, and the synthetic column leads the header
with an empty name (header `,name` for the example), not the name
`index`. -/
theorem C2_keyed_collection (kvs : List (String × Json))
    (h : kvs.all (fun kv => kv.2.isObj) = true) :
    ∃ df, pdBuild (Json.obj kvs) = .ok df ∧
      df.index = kvs.map Prod.fst ∧
      df.rows.length = kvs.length ∧
      dfToCsv df =
        csvLine ("" :: df.columns) ++
        String.join (kvs.map (fun kv =>
          csvLine (kv.1 :: df.columns.map (fun c =>
            renderCell (promoteCol df c) (kv.2.getObj.lookup c))))) := by
  refine ⟨⟨unionKeys (kvs.map (fun kv => kv.2.getObj)), kvs.map Prod.fst,
          kvs.map (fun kv => kv.2.getObj)⟩, ?_, rfl, by simp, ?_⟩
  · unfold pdBuild pdFromDictIndex
    simp [h]
  · unfold dfToCsv
    congr 1
    show String.join
        (((kvs.map Prod.fst).zip (kvs.map (fun kv => kv.2.getObj))).map _) = _
    rw [List.zip_map']
    rw [List.map_map]
    rfl

theorem C2_keyed_collection_witness :
    ([("001", Json.obj [("name", Json.str "Bulbasaur")]),
      ("004", Json.obj [("name", Json.str "Charmander")])].all
        (fun kv => kv.2.isObj) = true) ∧
    (∃ df,
      pdBuild (Json.obj
        [("001", Json.obj [("name", Json.str "Bulbasaur")]),
         ("004", Json.obj [("name", Json.str "Charmander")])]) = .ok df ∧
      df.index = ["001", "004"] ∧
      df.rows.length = 2 ∧
      dfToCsv df =
        csvLine ("" :: df.columns) ++
        String.join
          ([("001", Json.obj [("name", Json.str "Bulbasaur")]),
            ("004", Json.obj [("name", Json.str "Charmander")])].map
            (fun kv =>
              csvLine (kv.1 :: df.columns.map (fun c =>
                renderCell (promoteCol df c) (kv.2.getObj.lookup c)))))) :=
  ⟨by decide,
   C2_keyed_collection
     [("001", Json.obj [("name", Json.str "Bulbasaur")]),
      ("004", Json.obj [("name", Json.str "Charmander")])] (by decide)⟩

/-- C5: for every input the shape dispatch accepts, every row's key set
is a subset of the table's column set, a missing cell renders as the
empty field, and the CSV emits, for each row, the row's index label
followed by exactly one rendered cell per table column, in the table's
column order — the same column list for every row. -/
theorem C5_row_emission (j : Json) (df : DataFrame)
    (h : pdBuild j = .ok df) :
    (∀ r ∈ df.rows, ∀ k, k ∈ keysOf r → k ∈ df.columns) ∧
    (∀ b, renderCell b none = "") ∧
    dfToCsv df =
      csvLine ("" :: df.columns) ++
      String.join ((df.index.zip df.rows).map (fun p =>
        csvLine (p.1 :: df.columns.map (fun c =>
          renderCell (promoteCol df c) (p.2.lookup c))))) := by
  refine ⟨?_, fun b => rfl, rfl⟩
  intro r hr k hk
  cases j with
  | obj kvs =>
    have h' : pdFromDictIndex kvs = .ok df := h
    unfold pdFromDictIndex at h'
    split at h'
    · injection h' with h'
      subst h'
      exact mem_unionKeys.mpr ⟨r, hr, hk⟩
    · exact absurd h' (by simp)
  | arr xs =>
    have h' : pdFromList xs = .ok df := h
    unfold pdFromList at h'
    split at h'
    · injection h' with h'
      subst h'
      exact mem_unionKeys.mpr ⟨r, hr, hk⟩
    · split at h'
      · injection h' with h'
        subst h'
        obtain ⟨v, hv, rfl⟩ := List.mem_map.mp hr
        simpa [keysOf] using hk
      · exact absurd h' (by simp)
  | null => exact absurd h (by simp [pdBuild])
  | bool b => exact absurd h (by simp [pdBuild])
  | num n => exact absurd h (by simp [pdBuild])
  | str s => exact absurd h (by simp [pdBuild])

/-- Concrete input for the C5 witness: two rows, the second missing the
key `a`. -/
def jC5 : Json :=
  Json.arr [Json.obj [("a", Json.num 1), ("b", Json.str "x")],
            Json.obj [("b", Json.str "y")]]

/-- The table the shape dispatch builds from `jC5`. -/
def dfC5 : DataFrame :=
  ⟨["a", "b"], ["0", "1"],
   [[("a", Json.num 1), ("b", Json.str "x")], [("b", Json.str "y")]]⟩

theorem C5_row_emission_witness :
    pdBuild jC5 = .ok dfC5 ∧
    ((∀ r ∈ dfC5.rows, ∀ k, k ∈ keysOf r → k ∈ dfC5.columns) ∧
     (∀ b, renderCell b none = "") ∧
     dfToCsv dfC5 =
       csvLine ("" :: dfC5.columns) ++
       String.join ((dfC5.index.zip dfC5.rows).map (fun p =>
         csvLine (p.1 :: dfC5.columns.map (fun c =>
           renderCell (promoteCol dfC5 c) (p.2.lookup c)))))) :=
  ⟨rfl, C5_row_emission jC5 dfC5 rfl⟩

/-- File system whose input holds a nested object as a field value. -/
def fsC6 : FS := ⟨[("in.json", "[\x7b\"a\": \x7b\"b\": 1\x7d\x7d]")], []⟩

/-- The nested field value of the C6 example, `\x7b"b": 1\x7d`. -/
def nestedC6 : Json := Json.obj [("b", Json.num 1)]

/-- C6 counterexample: a nested object field is written to the CSV as
Python's `str()` text `\x7b'b': 1\x7d` — single quotes — which is not
the canonical JSON text `\x7b"b": 1\x7d` produced by `json.dumps`. -/
theorem C6_counterexample :
    (json_to_csv fsC6 "in.json" (some "out.csv")).2.get "out.csv" =
      some ",a\n0,\x7b\x27b\x27: 1\x7d\n" ∧
    renderCell false (some nestedC6) = pyRepr nestedC6 ∧
    pyRepr nestedC6 ≠ jsonDumps nestedC6 :=
  ⟨rfl, rfl, by decide⟩

/-- C6 amended: a field value that is itself an object or an array is
serialized inside the CSV cell as its full (never empty) Python `str()`
representation — not as canonical JSON text. -/
theorem C6_nested_value_repr (v : Json) (b : Bool)
    (h : v.isObj = true ∨ v.isArr = true) :
    renderCell b (some v) = pyRepr v ∧ renderCell b (some v) ≠ "" := by
  cases v with
  | arr xs =>
    refine ⟨rfl, ?_⟩
    intro hc
    have hc' : "[" ++ String.intercalate ", " (pyReprList xs) ++ "]" =
        "" := hc
    have hlen := congrArg String.length hc'
    simp only [String.length_append] at hlen
    have h1 : ("[" : String).length = 1 := rfl
    have h2 : ("]" : String).length = 1 := rfl
    have h0 : ("" : String).length = 0 := rfl
    omega
  | obj kvs =>
    refine ⟨rfl, ?_⟩
    intro hc
    have hc' : "\x7b" ++ String.intercalate ", " (pyReprMems kvs) ++
        "\x7d" = "" := hc
    have hlen := congrArg String.length hc'
    simp only [String.length_append] at hlen
    have h1 : ("\x7b" : String).length = 1 := rfl
    have h2 : ("\x7d" : String).length = 1 := rfl
    have h0 : ("" : String).length = 0 := rfl
    omega
  | null => simp [Json.isObj, Json.isArr] at h
  | bool b' => simp [Json.isObj, Json.isArr] at h
  | num n => simp [Json.isObj, Json.isArr] at h
  | str s => simp [Json.isObj, Json.isArr] at h

theorem C6_nested_value_repr_witness :
    ((Json.arr [Json.num 1, Json.num 2]).isObj = true ∨
      (Json.arr [Json.num 1, Json.num 2]).isArr = true) ∧
    (renderCell true (some (Json.arr [Json.num 1, Json.num 2])) =
        pyRepr (Json.arr [Json.num 1, Json.num 2]) ∧
      renderCell true (some (Json.arr [Json.num 1, Json.num 2])) ≠ "") :=
  ⟨Or.inr rfl, C6_nested_value_repr (Json.arr [Json.num 1, Json.num 2])
    true (Or.inr rfl)⟩

theorem C10_failure_returns_false_witness :
    convertRun ⟨[("in.json", "[")], []⟩ "in.json" (some "out.csv") =
      .error (.invalidJson "Expecting value") ∧
    json_to_csv ⟨[("in.json", "[")], []⟩ "in.json" (some "out.csv") =
      (false, ⟨[("in.json", "[")], []⟩) :=
  ⟨rfl,
   C10_failure_returns_false ⟨[("in.json", "[")], []⟩ "in.json"
     (some "out.csv") (.invalidJson "Expecting value") rfl⟩
